import Mathlib

/-!
Shallow embedding of `src/App.py`, the single source file of a Streamlit
timed-quiz client.  The parts with real invariants are embedded here:
the timer helper `seconds_left`, the submission handler `do_submit`, the
submit-trigger conditions of `render_quiz`, the score display, and the
data-fetch helper `fetch_quiz_bundle`.  Time instants are modelled as
rationals (seconds since an arbitrary epoch); Python `int()` truncation
toward zero is modelled exactly.
-/

namespace QuizApp

/-- Python `int()` applied to a real number truncates toward zero:
`int(q) = floor q` for `q ≥ 0` and `ceil q` for `q < 0`. -/
def pyInt (q : ℚ) : ℤ :=
  if 0 ≤ q then ⌊q⌋ else ⌈q⌉

/-- A Python `datetime` value at the granularity `seconds_left` uses it:
`wall` is the naive wall-clock reading in seconds since the epoch, and `tz`
is the UTC offset (in seconds) carried by `tzinfo`, if any. -/
structure PyDatetime where
  wall : ℚ
  tz : Option ℚ
deriving DecidableEq

/-- The UTC instant a `datetime` denotes after `seconds_left` normalises a
missing `tzinfo` to UTC (`dt.replace(tzinfo=timezone.utc)`, lines 151-154):
an aware value with offset `o` and wall reading `w` denotes instant `w - o`;
a naive value is read as UTC and denotes `w`. -/
def PyDatetime.instantUTC (d : PyDatetime) : ℚ :=
  d.wall - d.tz.getD 0

/-- The shapes of timestamp strings `seconds_left` can receive, at the
granularity `datetime.fromisoformat` distinguishes them: `wall` is the
wall-clock reading encoded by the date/time fields and `off` the encoded
numeric UTC offset in seconds.  `zulu` is a timestamp carrying the trailing
UTC marker; `malformed` is any string `fromisoformat` rejects. -/
inductive IsoForm
  | noOffset (wall : ℚ)
  | zulu (wall : ℚ)
  | withOffset (wall : ℚ) (off : ℚ)
  | malformed
deriving DecidableEq

/-- Embedding of `s.strip().replace("Z", "+00:00")` (line 149) at the
`IsoForm` granularity: the trailing UTC marker becomes an explicit zero
offset; stripping whitespace does not change which form a string has. -/
def stripReplaceZ : IsoForm → IsoForm
  | .zulu w => .withOffset w 0
  | f => f

/-- Embedding of `datetime.fromisoformat` (line 150): a well-formed
timestamp without an offset yields a naive datetime, an explicit offset
yields an aware one; `none` is the `ValueError` raised on anything else.
The bare UTC-marker form is never reached here because `stripReplaceZ` has
already rewritten it to an explicit zero offset. -/
def fromisoformat : IsoForm → Option PyDatetime
  | .noOffset w => some ⟨w, none⟩
  | .withOffset w off => some ⟨w, some off⟩
  | _ => none

/-- The dynamic type of the `ends_at` value handed to `seconds_left`: a
string, a `datetime`, `None`, or a value of any other type. -/
inductive EndsAtVal
  | str (f : IsoForm)
  | dt (wall : ℚ) (tz : Option ℚ)
  | noneVal
  | otherVal
deriving DecidableEq

/-- Body of the `try:` block of `seconds_left` (lines 147-158): dispatch on
the dynamic type of the argument, parse a string, normalise a missing
`tzinfo` to UTC, return `0` for any non-string non-datetime value, and
otherwise return `max(0, int((dt - now).total_seconds()))`; `.error` is a
raised exception escaping the block. -/
def seconds_left_try (v : EndsAtVal) (now : ℚ) : Except Unit ℤ :=
  match v with
  | .str f =>
      match fromisoformat (stripReplaceZ f) with
      | some d => .ok (max 0 (pyInt (d.instantUTC - now)))
      | none => .error ()
  | .dt wall tz => .ok (max 0 (pyInt (PyDatetime.instantUTC ⟨wall, tz⟩ - now)))
  | .noneVal => .ok 0
  | .otherVal => .ok 0

/-- `seconds_left` (lines 145-160): the `try` body wrapped in the blanket
`except Exception: return 0` handler. -/
def seconds_left (v : EndsAtVal) (now : ℚ) : ℤ :=
  match seconds_left_try v now with
  | .ok n => n
  | .error _ => 0

/-- The UTC instant a well-formed `ends_at` value denotes, if any. -/
def utcInstant : EndsAtVal → Option ℚ
  | .str f => (fromisoformat (stripReplaceZ f)).map PyDatetime.instantUTC
  | .dt wall tz => some (PyDatetime.instantUTC ⟨wall, tz⟩)
  | .noneVal => none
  | .otherVal => none

/-- One scored row of the `results` payload rendered by `render_quiz`
(lines 291-298) and returned by the `finish_attempt` RPC. -/
structure Result where
  question_id : String
  chosen_choice_id : Option String
  correct_choice_id : String
  is_correct : Bool
  explanation : Option String
deriving DecidableEq

/-- The local score display of `render_quiz` (line 288):
`sum(1 for r in results if r["is_correct"])`. -/
def score (results : List Result) : Nat :=
  results.countP (fun r => r.is_correct)

/-- A question row as selected by `fetch_quiz_bundle` (line 83). -/
structure Question where
  id : String
  body : String
  explanation : Option String
  position : Int
deriving DecidableEq

/-- A choice row as selected by `fetch_quiz_bundle` (line 101). -/
structure Choice where
  id : String
  question_id : String
  body : String
deriving DecidableEq

/-- Outcome of one Store query: the returned rows (a `None` payload already
folded to the empty list, as `res.data or []` does), or a raised exception
with its message. -/
inductive Fetched (α : Type)
  | ok (rows : List α)
  | exc (msg : String)
deriving DecidableEq

/-- One step of the dict grouping at line 111,
`choices_by_q.setdefault(c["question_id"], []).append(c)`, played on an
insertion-ordered association list. -/
def addChoice : List (String × List Choice) → Choice → List (String × List Choice)
  | [], c => [(c.question_id, [c])]
  | (k, v) :: rest, c =>
      if k = c.question_id then (k, v ++ [c]) :: rest
      else (k, v) :: addChoice rest c

/-- The `choices_by_q` dict built at lines 109-111. -/
def choices_by_q (ch : List Choice) : List (String × List Choice) :=
  ch.foldl addChoice []

/-- `fetch_quiz_bundle` (lines 78-117), the two Store queries abstracted as
their outcomes: a failed questions query returns the empty pair (line 89),
an empty question list returns the empty pair (line 96), a failed choices
query returns the fetched questions with an empty dict (line 107), and
otherwise the questions are paired with the grouped choices. -/
def fetch_quiz_bundle (qres : Fetched Question) (cres : Fetched Choice) :
    List Question × List (String × List Choice) :=
  match qres with
  | .exc _ => ([], [])
  | .ok qs =>
      if qs = [] then ([], [])
      else
        match cres with
        | .exc _ => (qs, [])
        | .ok ch => (qs, choices_by_q ch)

/-- The `attempt` dict stored in the session (lines 188-194). -/
structure Attempt where
  id : String
  quiz_id : String
  started_at : EndsAtVal
  ends_at : EndsAtVal
  submitted : Bool
deriving DecidableEq

/-- One answer row of the RPC payload built at lines 306-308. -/
structure Answer where
  question_id : String
  chosen_choice_id : String
deriving DecidableEq

/-- The slice of `st.session_state` that `do_submit` reads and writes: the
attempt, the collected answers, and the cached results. -/
structure SessionState where
  attempt : Attempt
  answers : List (String × String)
  results : Option (List Result)
deriving DecidableEq

/-- The answers payload of lines 306-308: one row per collected answer. -/
def build_answers (answers : List (String × String)) : List Answer :=
  answers.map (fun p => ⟨p.1, p.2⟩)

/-- Outcome of the `finish_attempt` RPC call at line 311: the scored rows,
or a raised exception carrying its message `str(e)`. -/
inductive FinishCall
  | ok (rows : List Result)
  | raised (msg : String)
deriving DecidableEq

/-- Python substring membership, `pat in msg`, over the message characters. -/
def containsSub (pat : List Char) : List Char → Bool
  | [] => pat.isPrefixOf []
  | c :: rest => pat.isPrefixOf (c :: rest) || containsSub pat rest

/-- The check at line 319: `"already finished" in str(e)`. -/
def isAlreadyFinishedMsg (msg : String) : Bool :=
  containsSub ("already finished".toList) msg.toList

/-- The message `do_submit` surfaces: `st.success` (line 315), `st.info`
(line 323), `st.error` (line 326), or nothing on the early return. -/
inductive UiMsg
  | success
  | info
  | error (msg : String)
  | silent
deriving DecidableEq

/-- What one `do_submit` run did: the session state it leaves behind,
whether the `finish_attempt` RPC was invoked, and the message surfaced. -/
structure SubmitEffect where
  state : SessionState
  called : Bool
  message : UiMsg
deriving DecidableEq

/-- `do_submit` (lines 300-326), the RPC outcome abstracted as `call`:
return immediately when the attempt is already marked submitted; on success
cache the results, mark the attempt submitted and show a success message; on
an exception whose message contains the already-finished marker, mark the
attempt submitted and show an informational message; on any other exception
leave the state untouched and show the failure. -/
def do_submit (st : SessionState) (call : FinishCall) : SubmitEffect :=
  if st.attempt.submitted then ⟨st, false, .silent⟩
  else
    match call with
    | .ok rows =>
        let att := { st.attempt with submitted := true }
        ⟨{ st with results := some rows, attempt := att }, true, .success⟩
    | .raised msg =>
        if isAlreadyFinishedMsg msg then
          ⟨{ st with attempt := { st.attempt with submitted := true } },
            true, .info⟩
        else ⟨st, true, .error msg⟩

/-- The results block of `render_quiz` (lines 261-270): render the cached
results when present and non-empty, otherwise fall back to the `get_results`
RPC, whose failure aborts the view. -/
def results_view (cached : Option (List Result)) (fetch : Fetched Result) :
    Option (List Result) :=
  if cached.getD [] = [] then
    match fetch with
    | .ok rows => some rows
    | .exc _ => none
  else some (cached.getD [])

/-- The submit-button gate of line 251:
`disabled = attempt["submitted"] or remaining == 0`. -/
def submit_button_disabled (submitted : Bool) (remaining : ℤ) : Bool :=
  submitted || (remaining == 0)

/-- The auto-submit gate of line 256:
`remaining == 0 and not attempt["submitted"]`. -/
def auto_submit_fires (submitted : Bool) (remaining : ℤ) : Bool :=
  (remaining == 0) && !submitted

/-- The stored answer key for one quiz question, as the Store holds it. -/
structure QKey where
  id : String
  correct_choice_id : String
  explanation : Option String
deriving DecidableEq

/-- Modelled from the spec: the scoring performed inside the Store
`finish_attempt` RPC, a server-side routine absent from `src/` (spec §4.2).
For each question in display order the chosen choice is looked up in the
submitted answers (absent means null), and `is_correct` compares the chosen
identifier against the stored correct identifier, null never equal to
anything. -/
def score_rpc (qs : List QKey) (answers : List (String × String)) :
    List Result :=
  qs.map (fun q =>
    let chosen := answers.lookup q.id
    ⟨q.id, chosen, q.correct_choice_id, chosen == some q.correct_choice_id,
      q.explanation⟩)

/-- Scenario A answer key: two questions, Q1 with correct choice C1a and Q2
with correct choice C2b. -/
def scnA_questions : List QKey :=
  [⟨("Q1"), ("C1a"), none⟩, ⟨("Q2"), ("C2b"), none⟩]

/-- Scenario A submission: Q1 answered C1a, Q2 answered C2a. -/
def scnA_answers : List (String × String) :=
  [(("Q1"), ("C1a")), (("Q2"), ("C2a"))]

/-- A session whose attempt is already marked submitted. -/
def doneState : SessionState :=
  ⟨⟨("a1"), ("quiz1"), .noneVal, .dt 120 (some 0), true⟩, [], none⟩

/-- A session whose attempt is not yet submitted. -/
def freshState : SessionState :=
  ⟨⟨("a2"), ("quiz1"), .noneVal, .dt 120 (some 0), false⟩,
    [(("Q1"), ("C1a"))], none⟩

/-- A concrete question row. -/
def demoQuestion : Question :=
  ⟨("Q1"), ("What is 2 + 2?"), none, 1⟩

theorem max_zero_pyInt (q : ℚ) : max 0 (pyInt q) = max 0 ⌊q⌋ := by
  unfold pyInt
  by_cases h : 0 ≤ q
  · rw [if_pos h]
  · rw [if_neg h]
    have hq : q ≤ 0 := le_of_not_le h
    have hc : ⌈q⌉ ≤ 0 := Int.ceil_le.mpr (by exact_mod_cast hq)
    have hf : ⌊q⌋ ≤ 0 := Int.floor_nonpos hq
    rw [max_eq_left hc, max_eq_left hf]

theorem seconds_left_eq_floor (v : EndsAtVal) (e now : ℚ)
    (h : utcInstant v = some e) :
    seconds_left v now = max 0 ⌊e - now⌋ := by
  cases v with
  | str f =>
      unfold utcInstant at h
      rcases Option.map_eq_some'.mp h with ⟨d, hd, he⟩
      subst he
      simp only [seconds_left, seconds_left_try, hd]
      exact max_zero_pyInt (d.instantUTC - now)
  | dt wall tz =>
      simp only [utcInstant, Option.some.injEq] at h
      subst h
      simp only [seconds_left, seconds_left_try]
      exact max_zero_pyInt (PyDatetime.instantUTC ⟨wall, tz⟩ - now)
  | noneVal => simp [utcInstant] at h
  | otherVal => simp [utcInstant] at h

theorem seconds_left_eq_zero_of_no_instant (v : EndsAtVal) (now : ℚ)
    (h : utcInstant v = none) : seconds_left v now = 0 := by
  cases v with
  | str f =>
      unfold utcInstant at h
      rw [Option.map_eq_none'] at h
      simp [seconds_left, seconds_left_try, h]
  | dt wall tz => simp [utcInstant] at h
  | noneVal => rfl
  | otherVal => rfl

theorem seconds_left_nonneg (v : EndsAtVal) (now : ℚ) :
    0 ≤ seconds_left v now := by
  cases hv : utcInstant v with
  | none => rw [seconds_left_eq_zero_of_no_instant v now hv]
  | some e => rw [seconds_left_eq_floor v e now hv]; exact le_max_left 0 _

/-- C2: for every stored deadline denoting the UTC instant `e` and every
current time `now`, `seconds_left` returns exactly `max 0 ⌊e - now⌋`, an
integer that is never negative; in particular with the deadline at
`t = 120` (start at `t = 0` with `timeLimit = 120`) the value observed at
`t = 119` is `1` and the value observed at `t = 121` is `0`. -/
theorem claim_C2_remaining_formula (v : EndsAtVal) (e now : ℚ)
    (h : utcInstant v = some e) :
    seconds_left v now = max 0 ⌊e - now⌋ ∧
    seconds_left (.dt 120 (some 0)) 119 = 1 ∧
    seconds_left (.dt 120 (some 0)) 121 = 0 :=
  ⟨seconds_left_eq_floor v e now h,
    by
      rw [seconds_left_eq_floor _ (120 : ℚ) 119
        (by norm_num [utcInstant, PyDatetime.instantUTC])]
      norm_num,
    by
      rw [seconds_left_eq_floor _ (120 : ℚ) 121
        (by norm_num [utcInstant, PyDatetime.instantUTC])]
      norm_num⟩

theorem claim_C2_witness :
    seconds_left (.dt 120 (some 0)) 119 = max 0 ⌊(120 : ℚ) - 119⌋ :=
  (claim_C2_remaining_formula (.dt 120 (some 0)) 120 119
    (by norm_num [utcInstant, PyDatetime.instantUTC])).1

/-- C3: with a fixed deadline denoting instant `e`, `seconds_left` is
monotonically non-increasing in the observation time, never negative, and
exactly `0` at every observation time at or after the deadline. -/
theorem claim_C3_monotone_nonneg_zero (v : EndsAtVal) (e now now1 now2 : ℚ)
    (h12 : now1 ≤ now2) (he : utcInstant v = some e) (hnow : e ≤ now) :
    seconds_left v now2 ≤ seconds_left v now1 ∧
    0 ≤ seconds_left v now1 ∧
    seconds_left v now = 0 := by
  rw [seconds_left_eq_floor v e now1 he, seconds_left_eq_floor v e now2 he,
    seconds_left_eq_floor v e now he]
  refine ⟨max_le_max le_rfl (Int.floor_le_floor (by linarith)),
    le_max_left 0 _, max_eq_left (Int.floor_nonpos (by linarith))⟩

theorem claim_C3_witness :
    seconds_left (.dt 120 (some 0)) 20 ≤ seconds_left (.dt 120 (some 0)) 10 ∧
    0 ≤ seconds_left (.dt 120 (some 0)) 10 ∧
    seconds_left (.dt 120 (some 0)) 125 = 0 :=
  claim_C3_monotone_nonneg_zero (.dt 120 (some 0)) 120 125 10 20
    (by norm_num) (by norm_num [utcInstant, PyDatetime.instantUTC]) (by norm_num)

/-- C6: every malformed, missing or non-timestamp deadline value — a string
`fromisoformat` rejects, `None`, or a value of any other type — makes
`seconds_left` return `0`, failing safe toward submission. -/
theorem claim_C6_malformed_yields_zero (now : ℚ) :
    seconds_left (.str .malformed) now = 0 ∧
    seconds_left .noneVal now = 0 ∧
    seconds_left .otherVal now = 0 :=
  ⟨rfl, rfl, rfl⟩

/-- C7: timestamp parsing accepts the trailing UTC marker, an explicit
numeric offset, and the offset-free form (read as UTC); all three encodings
of the same instant `w` produce the same remaining seconds, namely
`max 0 ⌊w - now⌋`. -/
theorem claim_C7_offset_forms_agree (w off now : ℚ) :
    seconds_left (.str (.noOffset w)) now = max 0 ⌊w - now⌋ ∧
    seconds_left (.str (.zulu w)) now = max 0 ⌊w - now⌋ ∧
    seconds_left (.str (.withOffset (w + off) off)) now = max 0 ⌊w - now⌋ := by
  refine ⟨seconds_left_eq_floor _ w now ?_, seconds_left_eq_floor _ w now ?_,
    seconds_left_eq_floor _ w now ?_⟩
  · simp [utcInstant, stripReplaceZ, fromisoformat, PyDatetime.instantUTC]
  · simp [utcInstant, stripReplaceZ, fromisoformat, PyDatetime.instantUTC]
  · simp [utcInstant, stripReplaceZ, fromisoformat, PyDatetime.instantUTC]

/-- C10: `seconds_left` is total — every dynamic type of input is handled,
the exception path is caught and returns `0` — and its value is always a
non-negative integer. -/
theorem claim_C10_total_nonneg (v : EndsAtVal) (now : ℚ) :
    0 ≤ seconds_left v now :=
  seconds_left_nonneg v now

/-- C1: `do_submit` is idempotent on the client side: when the attempt is
already marked submitted it returns at once, invoking no Store operation and
surfacing no message; and when the Store raises the already-finished
condition on an unsubmitted attempt, `do_submit` marks the attempt
submitted, surfaces an informational message (never a failure), and leaves
the cached results untouched, so the results subsequently rendered are the
previously computed ones re-fetched through `get_results`, with no
rescoring. -/
theorem claim_C1_finish_idempotent (st1 st2 : SessionState)
    (call : FinishCall) (msg : String) (prev : List Result)
    (h1 : st1.attempt.submitted = true)
    (h2 : st2.attempt.submitted = false)
    (h3 : isAlreadyFinishedMsg msg = true) :
    do_submit st1 call = ⟨st1, false, .silent⟩ ∧
    (do_submit st2 (.raised msg)).state.attempt.submitted = true ∧
    (do_submit st2 (.raised msg)).state.results = st2.results ∧
    (do_submit st2 (.raised msg)).message = .info ∧
    results_view none (.ok prev) = some prev := by
  refine ⟨?_, ?_, ?_, ?_, ?_⟩
  · simp [do_submit, h1]
  · simp [do_submit, h2, h3]
  · simp [do_submit, h2, h3]
  · simp [do_submit, h2, h3]
  · simp [results_view]

theorem claim_C1_witness :
    do_submit doneState (.raised ("late call")) = ⟨doneState, false, .silent⟩ ∧
    (do_submit freshState
      (.raised ("Error: attempt already finished"))).state.attempt.submitted
      = true ∧
    (do_submit freshState
      (.raised ("Error: attempt already finished"))).state.results
      = freshState.results ∧
    (do_submit freshState
      (.raised ("Error: attempt already finished"))).message = .info ∧
    results_view none (.ok []) = some [] :=
  claim_C1_finish_idempotent doneState freshState (.raised ("late call"))
    ("Error: attempt already finished") [] rfl rfl (by decide)

/-- C4: when the finish RPC fails with any error other than the
already-finished condition, `do_submit` leaves the session state exactly as
it was — the submitted flag stays false and the cached results are
unchanged — and reports the failure as an error message. -/
theorem claim_C4_failure_leaves_state (st : SessionState) (msg : String)
    (h1 : st.attempt.submitted = false)
    (h2 : isAlreadyFinishedMsg msg = false) :
    (do_submit st (.raised msg)).state = st ∧
    (do_submit st (.raised msg)).state.attempt.submitted = false ∧
    (do_submit st (.raised msg)).state.results = st.results ∧
    (do_submit st (.raised msg)).message = .error msg := by
  refine ⟨?_, ?_, ?_, ?_⟩ <;> simp [do_submit, h1, h2]

theorem claim_C4_witness :
    (do_submit freshState (.raised ("network unreachable"))).state
      = freshState ∧
    (do_submit freshState
      (.raised ("network unreachable"))).state.attempt.submitted = false ∧
    (do_submit freshState (.raised ("network unreachable"))).state.results
      = freshState.results ∧
    (do_submit freshState (.raised ("network unreachable"))).message
      = .error ("network unreachable") :=
  claim_C4_failure_leaves_state freshState ("network unreachable")
    rfl (by decide)

theorem submit_button_enabled_iff (submitted : Bool) (r : ℤ) (hr : 0 ≤ r) :
    submit_button_disabled submitted r = false ↔
      (submitted = false ∧ 0 < r) := by
  simp only [submit_button_disabled, Bool.or_eq_false_iff,
    beq_eq_false_iff_ne, ne_eq]
  constructor
  · rintro ⟨hs, hne⟩
    exact ⟨hs, by omega⟩
  · rintro ⟨hs, hlt⟩
    exact ⟨hs, by omega⟩

theorem auto_fires_iff (submitted : Bool) (r : ℤ) :
    auto_submit_fires submitted r = true ↔
      (submitted = false ∧ r = 0) := by
  simp only [auto_submit_fires, Bool.and_eq_true, beq_iff_eq,
    Bool.not_eq_true']
  constructor
  · rintro ⟨h0, hs⟩
    exact ⟨hs, h0⟩
  · rintro ⟨hs, h0⟩
    exact ⟨h0, hs⟩

/-- C5: with the remaining time computed by `seconds_left`, the explicit
submit button is enabled exactly when the attempt is not submitted and the
remaining time is positive, the automatic submission fires exactly when the
attempt is not submitted and the remaining time is zero, and an explicit
submit is never possible at zero remaining time; both gates hand control to
the single entry point `do_submit`. -/
theorem claim_C5_submit_triggers (submitted : Bool) (v : EndsAtVal)
    (now : ℚ) :
    (submit_button_disabled submitted (seconds_left v now) = false ↔
      (submitted = false ∧ 0 < seconds_left v now)) ∧
    (auto_submit_fires submitted (seconds_left v now) = true ↔
      (submitted = false ∧ seconds_left v now = 0)) ∧
    ¬(submit_button_disabled submitted (seconds_left v now) = false ∧
      seconds_left v now = 0) := by
  have hr := seconds_left_nonneg v now
  refine ⟨submit_button_enabled_iff submitted _ hr,
    auto_fires_iff submitted _, ?_⟩
  rintro ⟨hd, h0⟩
  have hpos := ((submit_button_enabled_iff submitted _ hr).mp hd).2
  omega

/-- C8: the displayed aggregate score is the count of results marked
correct, out of the total number of result rows; on Scenario A (two
questions, Q1 with key C1a and Q2 with key C2b, submission Q1 ↦ C1a and
Q2 ↦ C2a) the modelled Store scoring marks Q1 correct and Q2 incorrect and
the displayed score is 1 out of 2. -/
theorem claim_C8_score_count (results : List Result) :
    score results = (results.filter (fun r => r.is_correct)).length ∧
    score_rpc scnA_questions scnA_answers =
      [⟨("Q1"), some ("C1a"), ("C1a"), true, none⟩,
       ⟨("Q2"), some ("C2a"), ("C2b"), false, none⟩] ∧
    score (score_rpc scnA_questions scnA_answers) = 1 ∧
    (score_rpc scnA_questions scnA_answers).length = 2 :=
  ⟨List.countP_eq_length_filter _ _, by decide, by decide, by decide⟩

/-- C9 (counterexample): when the questions query succeeds with one question
and the choices query fails, `fetch_quiz_bundle` returns that non-empty
question list with an empty dict — not the empty pair the claim states for
every fetch error. -/
theorem claim_C9_counterexample :
    fetch_quiz_bundle (.ok [demoQuestion]) (.exc ("network down")) =
      ([demoQuestion], []) ∧
    ([demoQuestion], ([] : List (String × List Choice))) ≠ ([], []) := by
  refine ⟨by decide, by decide⟩

/-- C9 (amended): on a questions-fetch error `fetch_quiz_bundle` swallows
the exception and returns the empty pair, indistinguishable from a quiz with
no stored questions; on a choices-fetch error it swallows the exception and
returns the fetched questions with an empty dict, indistinguishable from
questions with no stored choices; in neither case does the failure
propagate. -/
theorem claim_C9_amended (qs : List Question) (m1 m2 : String)
    (cres : Fetched Choice) (h : qs ≠ []) :
    fetch_quiz_bundle (.exc m1) cres = ([], []) ∧
    fetch_quiz_bundle (.exc m1) cres = fetch_quiz_bundle (.ok []) cres ∧
    fetch_quiz_bundle (.ok qs) (.exc m2) = (qs, []) ∧
    fetch_quiz_bundle (.ok qs) (.exc m2) =
      fetch_quiz_bundle (.ok qs) (.ok []) := by
  refine ⟨rfl, rfl, ?_, ?_⟩
  · simp [fetch_quiz_bundle, h]
  · simp [fetch_quiz_bundle, h, choices_by_q]

theorem claim_C9_witness :
    fetch_quiz_bundle (.exc ("boom")) (.ok []) = ([], []) ∧
    fetch_quiz_bundle (.exc ("boom")) (.ok []) =
      fetch_quiz_bundle (.ok []) (.ok []) ∧
    fetch_quiz_bundle (.ok [demoQuestion]) (.exc ("choices failed")) =
      ([demoQuestion], []) ∧
    fetch_quiz_bundle (.ok [demoQuestion]) (.exc ("choices failed")) =
      fetch_quiz_bundle (.ok [demoQuestion]) (.ok []) :=
  claim_C9_amended [demoQuestion] ("boom") ("choices failed") (.ok [])
    (by decide)

end QuizApp
